import Mathlib

/-!
Verification development for the Options Analyzer backend
(`backend/server.py`).  The claims under study concern the scenario
analysis endpoint `analyze_adjustment_scenarios` (lines 352-474) and its
inner payoff evaluator `calculate_payoff` (lines 358-370).

Modelling conventions:
* Python floats are modelled by exact rationals `ℚ`; every numeric
  literal appearing in the source (0.5, 1.5, 0.1, 100, 5, 50, 25, 75)
  is exactly representable.
* Python `int(x)` (truncation toward zero) is `pyInt`; Python
  `range(a, b)` over integers is `pyRange`; Python `x or d` applied to
  an optional float, where `0.0` is falsy, is `pyOr`; Python
  `round(x, 2)` (round half to even at two decimals) is `round2`.
* Python `max(...)`/`min(...)` over a generator raise `ValueError` on an
  empty generator; the scenario analysis is therefore modelled as an
  `Option`-valued function that returns `none` exactly when the scanned
  price range is empty.
* The recommendation dictionaries built by the source carry four string
  fields (`type`, `urgency`, `reason`, `action`).  Each of the eight
  syntactically distinct dictionaries the source can append is modelled
  by one constructor of `RecContent`, carrying the numeric data that the
  source interpolates into its `reason`/`action` strings (the loss or
  profit percentage, and the two suggested strikes for the roll-up /
  roll-down adjustments).  `recType` and `recUrgency` recover the
  `type` and `urgency` fields of each dictionary.
-/

namespace OptionsAnalyzer

/-- One option leg, mirroring the pydantic model `OptionLeg`
(server.py lines 61-68).  `type` is "call" or "put", `action` is
"buy" or "sell"; `expiration` and `volatility` are advisory and unused
by the payoff math. -/
structure OptionLeg where
  type : String
  action : String
  strike : ℚ
  premium : ℚ
  quantity : ℤ
  expiration : Option String := none
  volatility : Option ℚ := some (1/5)
deriving DecidableEq, Repr

/-- The request model `AdjustmentScenario` (server.py lines 86-91). -/
structure AdjustmentScenario where
  ticker : String
  current_price : ℚ
  options : List OptionLeg
  scenario_type : String
  scenario_value : Option ℚ := none
deriving DecidableEq, Repr

/-- Python `int(x)` on a real value: truncation toward zero. -/
def pyInt (q : ℚ) : ℤ :=
  if q < 0 then -⌊-q⌋ else ⌊q⌋

/-- Python `range(a, b)` over integers, as the list `[a, a+1, ..., b-1]`
(empty when `b ≤ a`). -/
def pyRange (a b : ℤ) : List ℤ :=
  (List.range (b - a).toNat).map (fun (i : ℕ) => a + (i : ℤ))

/-- Python `v or d` where `v` is an optional float and `d` a default:
`None` and `0.0` are falsy, so both yield `d`. -/
def pyOr (v : Option ℚ) (d : ℚ) : ℚ :=
  match v with
  | none => d
  | some x => if x = 0 then d else x

/-- Python `round(x)`: nearest integer, ties to even. -/
def pyRound (q : ℚ) : ℤ :=
  if q - ⌊q⌋ < 1/2 then ⌊q⌋
  else if q - ⌊q⌋ > 1/2 then ⌊q⌋ + 1
  else if 2 ∣ ⌊q⌋ then ⌊q⌋ else ⌊q⌋ + 1

/-- Python `round(x, 2)`: rounding at two decimal places. -/
def round2 (q : ℚ) : ℚ :=
  (pyRound (q * 100) : ℚ) / 100

/-- The inner payoff evaluator `calculate_payoff` (server.py lines
358-370): sum over the legs of the intrinsic-value P&L, `+100` per unit
of intrinsic-minus-premium for bought legs and the negation for sold
legs.  A leg whose `type` is not "call" takes the put branch, and a leg
whose `action` is not "buy" takes the sell branch, exactly as in the
source's `if`/`else`. -/
def calculate_payoff (price : ℚ) (opts : List OptionLeg) : ℚ :=
  opts.foldl
    (fun total opt =>
      let intrinsic :=
        if opt.type = "call" then max 0 (price - opt.strike)
        else max 0 (opt.strike - price)
      if opt.action = "buy" then
        total + (intrinsic - opt.premium) * (opt.quantity : ℚ) * 100
      else
        total + (opt.premium - intrinsic) * (opt.quantity : ℚ) * 100)
    0

/-- The scenario price computation (server.py lines 375-379):
`price_up` multiplies by `1 + (scenario_value or 0.1)`, `price_down` by
`1 - (scenario_value or 0.1)`, and every other `scenario_type` leaves
the price unchanged. -/
def scenarioPrice (current_price : ℚ) (scenario_type : String)
    (scenario_value : Option ℚ) : ℚ :=
  if scenario_type = "price_up" then
    current_price * (1 + pyOr scenario_value (1/10))
  else if scenario_type = "price_down" then
    current_price * (1 - pyOr scenario_value (1/10))
  else current_price

/-- The integer candidate prices scanned by the extremum search
(server.py lines 384-385): `range(int(current_price * 0.5),
int(current_price * 1.5))`. -/
def scanCandidates (current_price : ℚ) : List ℤ :=
  pyRange (pyInt (current_price * (1/2))) (pyInt (current_price * (3/2)))

/-- The extremum scan (server.py lines 384-385): the maximum and the
minimum of `calculate_payoff` over the scanned candidates.  Python's
`max`/`min` raise on an empty generator, modelled by `none`. -/
def extremes (current_price : ℚ) (options : List OptionLeg) :
    Option (ℚ × ℚ) :=
  match (scanCandidates current_price).map
      (fun (p : ℤ) => calculate_payoff (p : ℚ) options) with
  | [] => none
  | v :: vs => some (vs.foldl max v, vs.foldl min v)

/-- The content of one recommendation dictionary.  Each constructor
stands for one of the eight dictionary literals appended by server.py
lines 388-463, carrying the numbers interpolated into its strings:
the loss percentage for `closeLoss`/`rollLoss`, the two suggested
strikes for `adjustCallSpread`/`adjustPutSpread`, and the profit
percentage for `takeProfit`/`partialClose`. -/
inductive RecContent where
  | closeLoss (loss_percent : ℚ)
  | rollLoss (loss_percent : ℚ)
  | adjustCallSpread (lo hi : ℤ)
  | adjustPutSpread (lo hi : ℤ)
  | adjustIronCondor
  | takeProfit (profit_percent : ℚ)
  | partialClose (profit_percent : ℚ)
  | timeDecayInfo
deriving DecidableEq, Repr

/-- The `"type"` field of each recommendation dictionary. -/
def recType : RecContent → String
  | .closeLoss _ => "close"
  | .rollLoss _ => "roll"
  | .adjustCallSpread _ _ => "adjust"
  | .adjustPutSpread _ _ => "adjust"
  | .adjustIronCondor => "adjust"
  | .takeProfit _ => "take_profit"
  | .partialClose _ => "partial_close"
  | .timeDecayInfo => "info"

/-- The `"urgency"` field of each recommendation dictionary. -/
def recUrgency : RecContent → String
  | .closeLoss _ => "high"
  | .rollLoss _ => "medium"
  | .adjustCallSpread _ _ => "medium"
  | .adjustPutSpread _ _ => "medium"
  | .adjustIronCondor => "medium"
  | .takeProfit _ => "low"
  | .partialClose _ => "low"
  | .timeDecayInfo => "low"

/-- The guarded loss-percentage computation (server.py line 392):
`abs(current_pnl) / (abs(max_loss) if max_loss != 0 else 1) * 100`. -/
def lossPercent (current_pnl max_loss : ℚ) : ℚ :=
  |current_pnl| / (if max_loss ≠ 0 then |max_loss| else 1) * 100

/-- Python `max(o.strike for o in l)` for a non-empty list of legs
(the source only evaluates it under a length guard); `0` is a junk
value for the unreachable empty case. -/
def maxStrike : List OptionLeg → ℚ
  | [] => 0
  | o :: os => os.foldl (fun m p => max m p.strike) o.strike

/-- Python `min(o.strike for o in l)` for a non-empty list of legs;
`0` is a junk value for the unreachable empty case. -/
def minStrike : List OptionLeg → ℚ
  | [] => 0
  | o :: os => os.foldl (fun m p => min m p.strike) o.strike

/-- The recommendation rules (server.py lines 388-463), in source
order: the loss-percent rule, the call-spread / put-spread / iron
condor shape rules (all only when `current_pnl < 0`), the profit-taking
rule (only when `current_pnl > 0`), and the unconditional terminal
time-decay reminder. -/
def buildRecommendations (current_pnl max_profit max_loss current_price : ℚ)
    (options : List OptionLeg) : List RecContent :=
  let lossRecs :=
    if current_pnl < 0 then
      let loss_percent := lossPercent current_pnl max_loss
      let base :=
        if loss_percent > 50 then [RecContent.closeLoss loss_percent]
        else if loss_percent > 25 then [RecContent.rollLoss loss_percent]
        else []
      let calls := options.filter (fun o => o.type = "call")
      let puts := options.filter (fun o => o.type = "put")
      let callSpread :=
        if calls.length = 2 ∧ puts.length = 0 ∧ current_price > maxStrike calls then
          [RecContent.adjustCallSpread (pyInt current_price) (pyInt current_price + 5)]
        else []
      let putSpread :=
        if puts.length = 2 ∧ calls.length = 0 ∧ current_price < minStrike puts then
          [RecContent.adjustPutSpread (pyInt current_price - 5) (pyInt current_price)]
        else []
      let condor :=
        if calls.length = 2 ∧ puts.length = 2 then [RecContent.adjustIronCondor]
        else []
      base ++ callSpread ++ putSpread ++ condor
    else []
  let profitRecs :=
    if current_pnl > 0 then
      let profit_percent :=
        if max_profit > 0 then current_pnl / max_profit * 100 else 0
      if profit_percent > 75 then [RecContent.takeProfit profit_percent]
      else if profit_percent > 50 then [RecContent.partialClose profit_percent]
      else []
    else []
  lossRecs ++ profitRecs ++ [RecContent.timeDecayInfo]

/-- The response model of the endpoint (server.py lines 465-474). -/
structure ScenarioResult where
  current_price : ℚ
  scenario_price : ℚ
  current_pnl : ℚ
  scenario_pnl : ℚ
  pnl_change : ℚ
  max_profit : ℚ
  max_loss : ℚ
  recommendations : List RecContent
deriving DecidableEq, Repr

/-- The scenario analysis endpoint `analyze_adjustment_scenarios`
(server.py lines 352-474).  `none` models the `ValueError` Python's
`max()` raises when the scanned price range is empty; otherwise the
response dictionary is returned with the monetary fields rounded to two
decimals as in the source. -/
def analyze_adjustment_scenarios (scenario : AdjustmentScenario) :
    Option ScenarioResult :=
  let options := scenario.options
  let current_price := scenario.current_price
  let current_pnl := calculate_payoff current_price options
  let scenario_price :=
    scenarioPrice current_price scenario.scenario_type scenario.scenario_value
  let scenario_pnl := calculate_payoff scenario_price options
  match extremes current_price options with
  | none => none
  | some (max_profit, max_loss) =>
    some {
      current_price := current_price
      scenario_price := scenario_price
      current_pnl := round2 current_pnl
      scenario_pnl := round2 scenario_pnl
      pnl_change := round2 (scenario_pnl - current_pnl)
      max_profit := round2 max_profit
      max_loss := round2 max_loss
      recommendations :=
        buildRecommendations current_pnl max_profit max_loss current_price options }

/-- Per-leg profit and loss in the words of the specification: intrinsic
value is `max(0, price − strike)` for a call and `max(0, strike − price)`
for a put; the leg contributes `(intrinsic − premium) × quantity × 100`
when bought and `(premium − intrinsic) × quantity × 100` when sold.
Declared from the spec's words, to be compared with `calculate_payoff`;
`0` is a junk value for legs outside the call/put, buy/sell domain. -/
def specLegPnl (price : ℚ) (o : OptionLeg) : ℚ :=
  let intrinsic :=
    if o.type = "call" then max 0 (price - o.strike)
    else if o.type = "put" then max 0 (o.strike - price)
    else 0
  if o.action = "buy" then (intrinsic - o.premium) * (o.quantity : ℚ) * 100
  else if o.action = "sell" then (o.premium - intrinsic) * (o.quantity : ℚ) * 100
  else 0

/-- The extremum scan as the claim words it, with `ceil(1.5 × price)` as
the upper end of the half-open candidate range.  Declared from the
spec's words only, to be compared with the implemented `extremes`. -/
def extremes_spec (current_price : ℚ) (options : List OptionLeg) :
    Option (ℚ × ℚ) :=
  match (pyRange ⌊current_price * (1/2)⌋ ⌈current_price * (3/2)⌉).map
      (fun (p : ℤ) => calculate_payoff (p : ℚ) options) with
  | [] => none
  | v :: vs => some (vs.foldl max v, vs.foldl min v)

/- Concrete inputs used by counterexamples and witnesses. -/

/-- A request with a recognized scenario kind and a positive price small
enough that `range(int(0.5 p), int(1.5 p))` is empty. -/
def tinyPriceReq : AdjustmentScenario :=
  { ticker := "AAPL", current_price := 1/2, options := [],
    scenario_type := "price_up" }

/-- A request with no legs, price 1 and the default `price_up` move. -/
def emptyUpReq : AdjustmentScenario :=
  { ticker := "AAPL", current_price := 1, options := [],
    scenario_type := "price_up" }

/-- The response to `emptyUpReq`. -/
def emptyUpRes : ScenarioResult :=
  { current_price := 1, scenario_price := 11/10, current_pnl := 0,
    scenario_pnl := 0, pnl_change := 0, max_profit := 0, max_loss := 0,
    recommendations := [RecContent.timeDecayInfo] }

/-- A request with no legs, price 2 (an integer inside its own scan
range) and the default `price_up` move. -/
def twoUpReq : AdjustmentScenario :=
  { ticker := "AAPL", current_price := 2, options := [],
    scenario_type := "price_up" }

/-- The response to `twoUpReq`. -/
def twoUpRes : ScenarioResult :=
  { current_price := 2, scenario_price := 11/5, current_pnl := 0,
    scenario_pnl := 0, pnl_change := 0, max_profit := 0, max_loss := 0,
    recommendations := [RecContent.timeDecayInfo] }

/-- A request with no legs and an unrecognized scenario kind. -/
def unknownKindReq : AdjustmentScenario :=
  { ticker := "AAPL", current_price := 1, options := [],
    scenario_type := "jump" }

/-- The response to `unknownKindReq`: no error, price pass-through. -/
def unknownKindRes : ScenarioResult :=
  { current_price := 1, scenario_price := 1, current_pnl := 0,
    scenario_pnl := 0, pnl_change := 0, max_profit := 0, max_loss := 0,
    recommendations := [RecContent.timeDecayInfo] }

/-- A long call butterfly around 4.5 with zero premiums: its payoff
peaks strictly between two integer grid points. -/
def butterflyLegs : List OptionLeg :=
  [{ type := "call", action := "buy", strike := 7/2, premium := 0, quantity := 1 },
   { type := "call", action := "sell", strike := 9/2, premium := 0, quantity := 2 },
   { type := "call", action := "buy", strike := 11/2, premium := 0, quantity := 1 }]

/-- A butterfly scenario at the payoff peak 4.5, which lies inside the
scanned interval but on no integer candidate. -/
def butterflyReq : AdjustmentScenario :=
  { ticker := "AAPL", current_price := 9/2, options := butterflyLegs,
    scenario_type := "price_up" }

/-- The response to `butterflyReq`. -/
def butterflyRes : ScenarioResult :=
  { current_price := 9/2, scenario_price := 99/20, current_pnl := 100,
    scenario_pnl := 55, pnl_change := -45, max_profit := 50, max_loss := 0,
    recommendations :=
      [RecContent.takeProfit 200, RecContent.timeDecayInfo] }

/-- One bought call whose payoff over the scan grid of price 7 depends
on whether the top of the grid is `int(10.5) = 10` or `ceil(10.5) = 11`. -/
def topCallLegs : List OptionLeg :=
  [{ type := "call", action := "buy", strike := 9, premium := 0, quantity := 1 }]

/-- Two sold calls with zero premium, used by the C6 scenarios. -/
def csLegs : List OptionLeg :=
  [{ type := "call", action := "sell", strike := 1, premium := 0, quantity := 1 },
   { type := "call", action := "sell", strike := 2, premium := 0, quantity := 1 }]

/-- A losing two-call position at the non-integral price 2.7, above both
strikes: the roll-up adjustment fires. -/
def callSpreadReq : AdjustmentScenario :=
  { ticker := "AAPL", current_price := 27/10, options := csLegs,
    scenario_type := "price_up" }

/-- The response to `callSpreadReq`. -/
def callSpreadRes : ScenarioResult :=
  { current_price := 27/10, scenario_price := 297/100, current_pnl := -240,
    scenario_pnl := -294, pnl_change := -54, max_profit := 0, max_loss := -300,
    recommendations :=
      [RecContent.closeLoss 80, RecContent.adjustCallSpread 2 7,
       RecContent.timeDecayInfo] }

/-- One bought call used by the extremum scanner witness. -/
def scanWitnessLegs : List OptionLeg :=
  [{ type := "call", action := "buy", strike := 1, premium := 0, quantity := 1 }]

/- Helper lemmas about the embedding. -/

theorem pyRange_nil {a b : ℤ} (h : b ≤ a) : pyRange a b = [] := by
  unfold pyRange
  have h1 : (b - a).toNat = 0 := by omega
  rw [h1]
  rfl

theorem pyRange_cons {a b : ℤ} (h : a < b) :
    pyRange a b = a :: pyRange (a + 1) b := by
  unfold pyRange
  have h1 : (b - a).toNat = (b - (a + 1)).toNat + 1 := by omega
  rw [h1, List.range_succ_eq_map, List.map_cons, List.map_map]
  refine congrArg₂ _ (by simp) (List.map_congr_left ?_)
  intro x _
  simp only [Function.comp_apply]
  push_cast
  ring

theorem mem_pyRange {a b x : ℤ} (h1 : a ≤ x) (h2 : x < b) :
    x ∈ pyRange a b := by
  unfold pyRange
  refine List.mem_map.mpr ⟨(x - a).toNat, List.mem_range.mpr (by omega), by omega⟩

theorem le_foldl_max (v : ℚ) (vs : List ℚ) : v ≤ vs.foldl max v := by
  induction vs generalizing v with
  | nil => exact le_refl v
  | cons hd tl ih => exact le_trans (le_max_left v hd) (ih (max v hd))

theorem mem_le_foldl_max {x : ℚ} (v : ℚ) (vs : List ℚ) (hx : x ∈ vs) :
    x ≤ vs.foldl max v := by
  induction vs generalizing v with
  | nil => cases hx
  | cons hd tl ih =>
    rcases List.mem_cons.mp hx with rfl | hmem
    · exact le_trans (le_max_right v x) (le_foldl_max _ tl)
    · exact ih (max v hd) hmem

theorem foldl_min_le (v : ℚ) (vs : List ℚ) : vs.foldl min v ≤ v := by
  induction vs generalizing v with
  | nil => exact le_refl v
  | cons hd tl ih => exact le_trans (ih (min v hd)) (min_le_left v hd)

theorem foldl_min_le_mem {x : ℚ} (v : ℚ) (vs : List ℚ) (hx : x ∈ vs) :
    vs.foldl min v ≤ x := by
  induction vs generalizing v with
  | nil => cases hx
  | cons hd tl ih =>
    rcases List.mem_cons.mp hx with rfl | hmem
    · exact le_trans (foldl_min_le _ tl) (min_le_right v x)
    · exact ih (min v hd) hmem

theorem foldl_max_mem (v : ℚ) (vs : List ℚ) : vs.foldl max v ∈ v :: vs := by
  induction vs generalizing v with
  | nil => exact List.mem_singleton.mpr rfl
  | cons hd tl ih =>
    rw [List.foldl_cons]
    rcases List.mem_cons.mp (ih (max v hd)) with heq | hmem
    · rw [heq]
      rcases max_choice v hd with h1 | h1 <;> rw [h1]
      · exact List.mem_cons_self _ _
      · exact List.mem_cons_of_mem _ (List.mem_cons_self _ _)
    · exact List.mem_cons_of_mem _ (List.mem_cons_of_mem _ hmem)

theorem foldl_min_mem (v : ℚ) (vs : List ℚ) : vs.foldl min v ∈ v :: vs := by
  induction vs generalizing v with
  | nil => exact List.mem_singleton.mpr rfl
  | cons hd tl ih =>
    rw [List.foldl_cons]
    rcases List.mem_cons.mp (ih (min v hd)) with heq | hmem
    · rw [heq]
      rcases min_choice v hd with h1 | h1 <;> rw [h1]
      · exact List.mem_cons_self _ _
      · exact List.mem_cons_of_mem _ (List.mem_cons_self _ _)
    · exact List.mem_cons_of_mem _ (List.mem_cons_of_mem _ hmem)

theorem foldl_add_eq_sum (f : OptionLeg → ℚ) (l : List OptionLeg) (b : ℚ) :
    l.foldl (fun t o => t + f o) b = b + (l.map f).sum := by
  induction l generalizing b with
  | nil => simp
  | cons hd tl ih =>
    simp only [List.foldl_cons, List.map_cons, List.sum_cons, ih]
    ring

theorem calculate_payoff_eq_sum (price : ℚ) (legs : List OptionLeg) :
    calculate_payoff price legs =
      (legs.map (fun opt =>
        if opt.action = "buy" then
          ((if opt.type = "call" then max 0 (price - opt.strike)
            else max 0 (opt.strike - price)) - opt.premium) * (opt.quantity : ℚ) * 100
        else
          (opt.premium - (if opt.type = "call" then max 0 (price - opt.strike)
            else max 0 (opt.strike - price))) * (opt.quantity : ℚ) * 100)).sum := by
  unfold calculate_payoff
  rw [show
      (fun (total : ℚ) (opt : OptionLeg) =>
        let intrinsic :=
          if opt.type = "call" then max 0 (price - opt.strike)
          else max 0 (opt.strike - price)
        if opt.action = "buy" then
          total + (intrinsic - opt.premium) * (opt.quantity : ℚ) * 100
        else
          total + (opt.premium - intrinsic) * (opt.quantity : ℚ) * 100) =
      (fun (total : ℚ) (opt : OptionLeg) =>
        total +
          (if opt.action = "buy" then
            ((if opt.type = "call" then max 0 (price - opt.strike)
              else max 0 (opt.strike - price)) - opt.premium) * (opt.quantity : ℚ) * 100
          else
            (opt.premium - (if opt.type = "call" then max 0 (price - opt.strike)
              else max 0 (opt.strike - price))) * (opt.quantity : ℚ) * 100))
      from funext fun total => funext fun opt => by dsimp only; split <;> rfl]
  rw [foldl_add_eq_sum]
  ring

theorem pyRound_bounds (q : ℚ) : ⌊q⌋ ≤ pyRound q ∧ pyRound q ≤ ⌊q⌋ + 1 := by
  unfold pyRound
  split_ifs <;> omega

theorem pyRound_mono {a b : ℚ} (h : a ≤ b) : pyRound a ≤ pyRound b := by
  rcases lt_or_le ⌊a⌋ ⌊b⌋ with hf | hf
  · calc pyRound a ≤ ⌊a⌋ + 1 := (pyRound_bounds a).2
    _ ≤ ⌊b⌋ := hf
    _ ≤ pyRound b := (pyRound_bounds b).1
  · have hfe : ⌊a⌋ = ⌊b⌋ := le_antisymm (Int.floor_le_floor h) hf
    have hfr : a - (⌊a⌋ : ℚ) ≤ b - (⌊b⌋ : ℚ) := by
      rw [← hfe]
      linarith
    unfold pyRound
    rw [hfe]
    split_ifs <;> first | omega | linarith

theorem round2_mono {a b : ℚ} (h : a ≤ b) : round2 a ≤ round2 b := by
  unfold round2
  have h1 : pyRound (a * 100) ≤ pyRound (b * 100) :=
    pyRound_mono (by linarith)
  have h2 : ((pyRound (a * 100) : ℤ) : ℚ) ≤ ((pyRound (b * 100) : ℤ) : ℚ) := by
    exact_mod_cast h1
  linarith

theorem scan_lower_lt_upper {p : ℚ} (h : 2/3 ≤ p) :
    pyInt (p * (1/2)) < pyInt (p * (3/2)) := by
  have h0 : (0 : ℚ) < p := lt_of_lt_of_le (by norm_num) h
  have hn1 : ¬ p * (1/2) < 0 := not_lt.mpr (by positivity)
  have hn2 : ¬ p * (3/2) < 0 := not_lt.mpr (by positivity)
  unfold pyInt
  rw [if_neg hn1, if_neg hn2]
  rw [Int.lt_iff_add_one_le]
  apply Int.le_floor.mpr
  rcases le_or_lt 1 p with hp | hp
  · have hfl : (⌊p * (1/2)⌋ : ℚ) ≤ p * (1/2) := Int.floor_le _
    push_cast
    linarith
  · have hfl : ⌊p * (1/2)⌋ = 0 :=
      Int.floor_eq_zero_iff.mpr ⟨by positivity, by linarith⟩
    rw [hfl]
    push_cast
    linarith

theorem scanCandidates_ne_nil {p : ℚ} (h : 2/3 ≤ p) :
    scanCandidates p ≠ [] := by
  unfold scanCandidates
  rw [pyRange_cons (scan_lower_lt_upper h)]
  exact List.cons_ne_nil _ _

theorem extremes_of_ne_nil (opts : List OptionLeg) {p : ℚ}
    (h : scanCandidates p ≠ []) :
    ∃ mp ml, extremes p opts = some (mp, ml) := by
  obtain ⟨c, cs, hsc⟩ := List.exists_cons_of_ne_nil h
  unfold extremes
  rw [hsc, List.map_cons]
  exact ⟨_, _, rfl⟩

theorem extremes_inv {p : ℚ} {opts : List OptionLeg} {mp ml : ℚ}
    (h : extremes p opts = some (mp, ml)) :
    ∃ v vs, (scanCandidates p).map (fun (c : ℤ) => calculate_payoff (c : ℚ) opts) = v :: vs ∧
      mp = vs.foldl max v ∧ ml = vs.foldl min v := by
  unfold extremes at h
  cases hsc : (scanCandidates p).map (fun (c : ℤ) => calculate_payoff (c : ℚ) opts) with
  | nil => rw [hsc] at h; exact Option.noConfusion h
  | cons v vs =>
    rw [hsc] at h
    obtain ⟨h1, h2⟩ := Prod.mk.injEq .. ▸ Option.some.inj h
    exact ⟨v, vs, rfl, h1.symm, h2.symm⟩

theorem analyze_inv {s : AdjustmentScenario} {r : ScenarioResult}
    (h : analyze_adjustment_scenarios s = some r) :
    ∃ mp ml, extremes s.current_price s.options = some (mp, ml) ∧
      r = { current_price := s.current_price
            scenario_price :=
              scenarioPrice s.current_price s.scenario_type s.scenario_value
            current_pnl := round2 (calculate_payoff s.current_price s.options)
            scenario_pnl := round2 (calculate_payoff
              (scenarioPrice s.current_price s.scenario_type s.scenario_value)
              s.options)
            pnl_change := round2 (calculate_payoff
              (scenarioPrice s.current_price s.scenario_type s.scenario_value)
              s.options - calculate_payoff s.current_price s.options)
            max_profit := round2 mp
            max_loss := round2 ml
            recommendations :=
              buildRecommendations (calculate_payoff s.current_price s.options)
                mp ml s.current_price s.options } := by
  simp only [analyze_adjustment_scenarios] at h
  cases he : extremes s.current_price s.options with
  | none => rw [he] at h; exact Option.noConfusion h
  | some pr =>
    obtain ⟨mp, ml⟩ := pr
    rw [he] at h
    exact ⟨mp, ml, rfl, (Option.some.inj h).symm⟩

theorem build_getLast (current_pnl max_profit max_loss current_price : ℚ)
    (options : List OptionLeg) :
    (buildRecommendations current_pnl max_profit max_loss current_price
      options).getLast? = some RecContent.timeDecayInfo := by
  unfold buildRecommendations
  exact List.getLast?_concat _

theorem build_ne_nil (current_pnl max_profit max_loss current_price : ℚ)
    (options : List OptionLeg) :
    buildRecommendations current_pnl max_profit max_loss current_price
      options ≠ [] := by
  unfold buildRecommendations
  simp

theorem build_zero_pnl (max_profit max_loss current_price : ℚ)
    (options : List OptionLeg) :
    buildRecommendations 0 max_profit max_loss current_price options =
      [RecContent.timeDecayInfo] := by
  unfold buildRecommendations
  norm_num

theorem mem_ite_list {x : RecContent} {c : Prop} [Decidable c]
    {l1 l2 : List RecContent} (h : x ∈ if c then l1 else l2) :
    x ∈ l1 ∨ x ∈ l2 := by
  split at h
  · exact Or.inl h
  · exact Or.inr h

theorem build_call_adjust {current_pnl max_profit max_loss current_price : ℚ}
    {options : List OptionLeg} {lo hi : ℤ}
    (h : RecContent.adjustCallSpread lo hi ∈
      buildRecommendations current_pnl max_profit max_loss current_price options) :
    lo = pyInt current_price ∧ hi = pyInt current_price + 5 := by
  simp only [buildRecommendations] at h
  rcases List.mem_append.mp h with h | h
  · rcases List.mem_append.mp h with h | h
    · rcases mem_ite_list h with h | h
      · rcases List.mem_append.mp h with h | h
        · rcases List.mem_append.mp h with h | h
          · rcases List.mem_append.mp h with h | h
            · rcases mem_ite_list h with h | h
              · simp at h
              · rcases mem_ite_list h with h | h <;> simp at h
            · rcases mem_ite_list h with h | h
              · simp only [List.mem_singleton,
                  RecContent.adjustCallSpread.injEq] at h
                exact h
              · simp at h
          · rcases mem_ite_list h with h | h <;> simp at h
        · rcases mem_ite_list h with h | h <;> simp at h
      · simp at h
    · rcases mem_ite_list h with h | h
      · rcases mem_ite_list h with h | h
        · simp at h
        · rcases mem_ite_list h with h | h <;> simp at h
      · simp at h
  · simp at h

theorem build_put_adjust {current_pnl max_profit max_loss current_price : ℚ}
    {options : List OptionLeg} {lo hi : ℤ}
    (h : RecContent.adjustPutSpread lo hi ∈
      buildRecommendations current_pnl max_profit max_loss current_price options) :
    lo = pyInt current_price - 5 ∧ hi = pyInt current_price := by
  simp only [buildRecommendations] at h
  rcases List.mem_append.mp h with h | h
  · rcases List.mem_append.mp h with h | h
    · rcases mem_ite_list h with h | h
      · rcases List.mem_append.mp h with h | h
        · rcases List.mem_append.mp h with h | h
          · rcases List.mem_append.mp h with h | h
            · rcases mem_ite_list h with h | h
              · simp at h
              · rcases mem_ite_list h with h | h <;> simp at h
            · rcases mem_ite_list h with h | h <;> simp at h
          · rcases mem_ite_list h with h | h
            · simp only [List.mem_singleton,
                RecContent.adjustPutSpread.injEq] at h
              exact h
            · simp at h
        · rcases mem_ite_list h with h | h <;> simp at h
      · simp at h
    · rcases mem_ite_list h with h | h
      · rcases mem_ite_list h with h | h
        · simp at h
        · rcases mem_ite_list h with h | h <;> simp at h
      · simp at h
  · simp at h

/- Evaluations of the analysis on the concrete requests above. -/

theorem scan_one : scanCandidates (1 : ℚ) = [0] := by
  norm_num [scanCandidates, pyInt, pyRange_cons, pyRange_nil]

theorem scan_two : scanCandidates (2 : ℚ) = [1, 2] := by
  norm_num [scanCandidates, pyInt, pyRange_cons, pyRange_nil]

theorem extremes_one_nil : extremes (1 : ℚ) [] = some (0, 0) := by
  unfold extremes
  rw [scan_one]
  simp [calculate_payoff]

theorem extremes_two_nil : extremes (2 : ℚ) [] = some (0, 0) := by
  unfold extremes
  rw [scan_two]
  simp [calculate_payoff]

theorem emptyUp_eval :
    analyze_adjustment_scenarios emptyUpReq = some emptyUpRes := by
  simp only [analyze_adjustment_scenarios, emptyUpReq]
  rw [extremes_one_nil]
  norm_num [emptyUpRes, scenarioPrice, pyOr, calculate_payoff, round2,
    pyRound, build_zero_pnl, ScenarioResult.mk.injEq]

theorem unknownKind_eval :
    analyze_adjustment_scenarios unknownKindReq = some unknownKindRes := by
  simp only [analyze_adjustment_scenarios, unknownKindReq]
  rw [extremes_one_nil]
  norm_num [unknownKindRes, scenarioPrice, pyOr, calculate_payoff, round2,
    pyRound, build_zero_pnl, ScenarioResult.mk.injEq]
  simp

theorem twoUp_eval :
    analyze_adjustment_scenarios twoUpReq = some twoUpRes := by
  simp only [analyze_adjustment_scenarios, twoUpReq]
  rw [extremes_two_nil]
  norm_num [twoUpRes, scenarioPrice, pyOr, calculate_payoff, round2,
    pyRound, build_zero_pnl, ScenarioResult.mk.injEq]

/- The claims. -/

/-- C1: for every spot price and every list of legs whose types are
call/put and whose actions are buy/sell, `calculate_payoff` returns the
sum over the legs of (intrinsic − premium) × quantity × 100 for a bought
leg and (premium − intrinsic) × quantity × 100 for a sold leg, with
intrinsic `max(0, p − strike)` for a call and `max(0, strike − p)` for a
put; and the payoff of an empty leg list is 0 for every price. -/
theorem C1_payoff_is_sum_of_leg_pnl (price : ℚ) (legs : List OptionLeg)
    (h : ∀ o ∈ legs,
      (o.type = "call" ∨ o.type = "put") ∧
      (o.action = "buy" ∨ o.action = "sell")) :
    calculate_payoff price legs = (legs.map (specLegPnl price)).sum ∧
    calculate_payoff price [] = 0 := by
  refine ⟨?_, rfl⟩
  rw [calculate_payoff_eq_sum]
  refine congrArg _ (List.map_congr_left ?_)
  intro o ho
  obtain ⟨ht, ha⟩ := h o ho
  unfold specLegPnl
  rcases ht with ht | ht <;> rcases ha with ha | ha <;> simp [ht, ha]

/-- Input for the C1 witness: a bought call and a sold put. -/
def c1Legs : List OptionLeg :=
  [{ type := "call", action := "buy", strike := 10, premium := 1, quantity := 2 },
   { type := "put", action := "sell", strike := 8, premium := 1, quantity := 1 }]

/-- Witness for C1 at price 12 on `c1Legs`. -/
theorem C1_witness :
    (∀ o ∈ c1Legs,
      (o.type = "call" ∨ o.type = "put") ∧
      (o.action = "buy" ∨ o.action = "sell")) ∧
    (calculate_payoff 12 c1Legs = (c1Legs.map (specLegPnl 12)).sum ∧
     calculate_payoff 12 [] = 0) :=
  ⟨by decide, C1_payoff_is_sum_of_leg_pnl 12 c1Legs (by decide)⟩

/-- C2 is false as stated: at the positive price 1/2 with the
recognized kind `price_up`, the evaluation throws (Python `max()` on
the empty scan range raises `ValueError`, modelled by `none`), even
though the claim promises it never throws for positive prices and
recognized kinds.  No `InvalidScenario`/`InvalidPosition` errors exist
in the code. -/
theorem C2_counterexample :
    (0 : ℚ) < tinyPriceReq.current_price ∧
    tinyPriceReq.scenario_type = "price_up" ∧
    analyze_adjustment_scenarios tinyPriceReq = none := by
  refine ⟨by norm_num [tinyPriceReq], rfl, ?_⟩
  have hsc : scanCandidates ((1 : ℚ)/2) = [] := by
    norm_num [scanCandidates, pyInt, pyRange_nil]
  have he : extremes ((1 : ℚ)/2) ([] : List OptionLeg) = none := by
    unfold extremes
    rw [hsc]
    rfl
  simp only [analyze_adjustment_scenarios, tinyPriceReq]
  rw [he]

/-- C2 (amended): the evaluation returns a result and never throws for
every request whose current_price is at least 2/3 — regardless of the
scenario kind; the only error is the empty-scan-range error, which for
positive prices occurs exactly when the price is below 2/3. -/
theorem C2_no_throw_above_two_thirds (s : AdjustmentScenario)
    (h : 2/3 ≤ s.current_price) :
    ∃ r, analyze_adjustment_scenarios s = some r := by
  obtain ⟨mp, ml, he⟩ :=
    extremes_of_ne_nil s.options (scanCandidates_ne_nil h)
  simp only [analyze_adjustment_scenarios]
  rw [he]
  exact ⟨_, rfl⟩

/-- Witness for the amended C2 at price 1. -/
theorem C2_witness :
    2/3 ≤ emptyUpReq.current_price ∧
    ∃ r, analyze_adjustment_scenarios emptyUpReq = some r :=
  ⟨by norm_num [emptyUpReq],
   C2_no_throw_above_two_thirds emptyUpReq (by norm_num [emptyUpReq])⟩

/-- C3 is false as stated: for the unrecognized scenario kind "jump"
the evaluation does not fail with any error; it returns a result whose
scenario price is the unchanged current price — exactly the silent
no-op pass-through the claim rules out. -/
theorem C3_counterexample :
    unknownKindReq.scenario_type ∉
      (["price_up", "price_down", "volatility_increase", "time_decay"] :
        List String) ∧
    analyze_adjustment_scenarios unknownKindReq = some unknownKindRes ∧
    unknownKindRes.scenario_price = unknownKindReq.current_price :=
  ⟨by decide, unknownKind_eval, by norm_num [unknownKindReq, unknownKindRes]⟩

/-- C3 (amended): an unrecognized scenario kind raises no error; any
scenario kind other than price_up/price_down is silently treated as a
no-op price pass-through (`scenario_price = current_price`). -/
theorem C3_unknown_kind_pass_through (s : AdjustmentScenario)
    (r : ScenarioResult)
    (h1 : s.scenario_type ≠ "price_up")
    (h2 : s.scenario_type ≠ "price_down")
    (h : analyze_adjustment_scenarios s = some r) :
    r.scenario_price = s.current_price := by
  obtain ⟨mp, ml, he, rfl⟩ := analyze_inv h
  simp [scenarioPrice, h1, h2]

/-- Witness for the amended C3 on the "jump" request. -/
theorem C3_witness :
    unknownKindReq.scenario_type ≠ "price_up" ∧
    unknownKindReq.scenario_type ≠ "price_down" ∧
    unknownKindRes.scenario_price = unknownKindReq.current_price :=
  ⟨by decide, by decide,
   C3_unknown_kind_pass_through unknownKindReq unknownKindRes
     (by decide) (by decide) unknownKind_eval⟩

theorem scan_butterfly : scanCandidates (9/2 : ℚ) = [2, 3, 4, 5] := by
  norm_num [scanCandidates, pyInt, pyRange_cons, pyRange_nil]

theorem extremes_butterfly :
    extremes (9/2 : ℚ) butterflyLegs = some (50, 0) := by
  unfold extremes
  rw [scan_butterfly]
  simp [calculate_payoff, butterflyLegs, max_def]
  norm_num

theorem pyRound_intCast (n : ℤ) : pyRound ((n : ℤ) : ℚ) = n := by
  unfold pyRound
  rw [Int.floor_intCast]
  norm_num

theorem round2_eval (x v : ℚ) (m : ℤ) (h1 : x * 100 = (m : ℚ))
    (h2 : (m : ℚ) = v * 100) : round2 x = v := by
  unfold round2
  rw [h1, pyRound_intCast, h2]
  field_simp

theorem butterfly_eval :
    analyze_adjustment_scenarios butterflyReq = some butterflyRes := by
  simp only [analyze_adjustment_scenarios, butterflyReq]
  simp only [extremes_butterfly]
  have hsp : scenarioPrice (9/2 : ℚ) "price_up" none = 99/20 := by
    simp [scenarioPrice, pyOr]
    norm_num
  have hpnl : calculate_payoff (9/2 : ℚ) butterflyLegs = 100 := by
    simp [calculate_payoff, butterflyLegs, max_def]
    norm_num
  have hspnl : calculate_payoff (99/20 : ℚ) butterflyLegs = 55 := by
    simp [calculate_payoff, butterflyLegs, max_def]
    norm_num
  rw [hsp, hspnl, hpnl]
  have hbr : buildRecommendations 100 50 0 (9/2 : ℚ) butterflyLegs =
      [RecContent.takeProfit 200, RecContent.timeDecayInfo] := by
    simp [buildRecommendations]
    norm_num
  rw [hbr, round2_eval 100 100 10000 (by norm_num) (by norm_num),
    round2_eval 55 55 5500 (by norm_num) (by norm_num),
    round2_eval (55 - 100) (-45) (-4500) (by norm_num) (by norm_num),
    round2_eval 50 50 5000 (by norm_num) (by norm_num),
    round2_eval 0 0 0 (by norm_num) (by norm_num)]
  rfl

/-- C4 is false as stated: for the zero-premium call butterfly at the
non-integer price 4.5, which lies inside the scanned interval [2, 6),
the payoff peaks between grid points: the result has current_pnl = 100
but max_profit = 50, violating max_profit ≥ current_pnl. -/
theorem C4_counterexample :
    (2 : ℚ) ≤ butterflyReq.current_price ∧
    butterflyReq.current_price < 6 ∧
    analyze_adjustment_scenarios butterflyReq = some butterflyRes ∧
    butterflyRes.current_pnl = 100 ∧
    butterflyRes.max_profit = 50 ∧
    ¬ butterflyRes.current_pnl ≤ butterflyRes.max_profit :=
  ⟨by norm_num [butterflyReq], by norm_num [butterflyReq], butterfly_eval,
   by norm_num [butterflyRes], by norm_num [butterflyRes],
   by norm_num [butterflyRes]⟩

/-- C4 (amended): whenever the evaluation returns a result and the
current price is itself one of the integer candidate prices of the scan
(an integer with int(0.5 p) ≤ p < int(1.5 p)), the result satisfies
max_loss ≤ current_pnl ≤ max_profit; for non-integer prices inside the
scanned interval the bound can fail, as the counterexample shows. -/
theorem C4_bounds_at_integer_price (s : AdjustmentScenario)
    (r : ScenarioResult)
    (h : analyze_adjustment_scenarios s = some r)
    (h1 : s.current_price = ((pyInt s.current_price : ℤ) : ℚ))
    (h2 : pyInt (s.current_price * (1/2)) ≤ pyInt s.current_price)
    (h3 : pyInt s.current_price < pyInt (s.current_price * (3/2))) :
    r.max_loss ≤ r.current_pnl ∧ r.current_pnl ≤ r.max_profit := by
  obtain ⟨mp, ml, he, rfl⟩ := analyze_inv h
  obtain ⟨v, vs, hmap, hmp, hml⟩ := extremes_inv he
  have hmem : calculate_payoff s.current_price s.options ∈ v :: vs := by
    rw [← hmap]
    refine List.mem_map.mpr ⟨pyInt s.current_price, ?_, ?_⟩
    · unfold scanCandidates
      exact mem_pyRange h2 h3
    · rw [← h1]
  have hb : ml ≤ calculate_payoff s.current_price s.options ∧
      calculate_payoff s.current_price s.options ≤ mp := by
    rcases List.mem_cons.mp hmem with heq | hmem2
    · rw [heq, hmp, hml]
      exact ⟨foldl_min_le v vs, le_foldl_max v vs⟩
    · rw [hmp, hml]
      exact ⟨foldl_min_le_mem v vs hmem2, mem_le_foldl_max v vs hmem2⟩
  exact ⟨round2_mono hb.1, round2_mono hb.2⟩

/-- Witness for the amended C4 at the integer price 2 with no legs. -/
theorem C4_witness :
    analyze_adjustment_scenarios twoUpReq = some twoUpRes ∧
    twoUpReq.current_price = ((pyInt twoUpReq.current_price : ℤ) : ℚ) ∧
    pyInt (twoUpReq.current_price * (1/2)) ≤ pyInt twoUpReq.current_price ∧
    pyInt twoUpReq.current_price < pyInt (twoUpReq.current_price * (3/2)) ∧
    (twoUpRes.max_loss ≤ twoUpRes.current_pnl ∧
     twoUpRes.current_pnl ≤ twoUpRes.max_profit) :=
  ⟨twoUp_eval, by norm_num [twoUpReq, pyInt], by norm_num [twoUpReq, pyInt],
   by norm_num [twoUpReq, pyInt],
   C4_bounds_at_integer_price twoUpReq twoUpRes twoUp_eval
     (by norm_num [twoUpReq, pyInt]) (by norm_num [twoUpReq, pyInt])
     (by norm_num [twoUpReq, pyInt])⟩

theorem scan_three : scanCandidates (3 : ℚ) = [1, 2, 3] := by
  norm_num [scanCandidates, pyInt, pyRange_cons, pyRange_nil]

theorem scan_seven : scanCandidates (7 : ℚ) = [3, 4, 5, 6, 7, 8, 9] := by
  norm_num [scanCandidates, pyInt, pyRange_cons, pyRange_nil]

theorem spec_range_seven :
    pyRange ⌊(7 : ℚ) * (1/2)⌋ ⌈(7 : ℚ) * (3/2)⌉ =
      [3, 4, 5, 6, 7, 8, 9, 10] := by
  have hc : ⌈(7 : ℚ) * (3/2)⌉ = 11 := by
    rw [Int.ceil_eq_iff]
    norm_num
  rw [hc]
  norm_num [pyRange_cons, pyRange_nil]

theorem extremes_topCall : extremes (7 : ℚ) topCallLegs = some (0, 0) := by
  unfold extremes
  rw [scan_seven]
  simp [calculate_payoff, topCallLegs, max_def]
  norm_num

theorem extremes_spec_topCall :
    extremes_spec (7 : ℚ) topCallLegs = some (100, 0) := by
  unfold extremes_spec
  rw [spec_range_seven]
  simp [calculate_payoff, topCallLegs, max_def]
  norm_num

theorem extremes_scanWitness :
    extremes (3 : ℚ) scanWitnessLegs = some (200, 0) := by
  unfold extremes
  rw [scan_three]
  simp [calculate_payoff, scanWitnessLegs, max_def]
  norm_num

/-- C5 is false as stated: at price 7 the top of the scanned range is
`int(10.5) = 10` (exclusive), not `ceil(10.5) = 11` (exclusive): the
implemented scan stops at candidate 9, so for a bought 9-strike call it
reports max_profit 0 where the claimed ceil-bounded scan would observe
payoff 100 at candidate 10. -/
theorem C5_counterexample :
    (0 : ℚ) < 7 ∧
    extremes (7 : ℚ) topCallLegs = some (0, 0) ∧
    extremes_spec (7 : ℚ) topCallLegs = some (100, 0) ∧
    extremes (7 : ℚ) topCallLegs ≠ extremes_spec (7 : ℚ) topCallLegs := by
  refine ⟨by norm_num, extremes_topCall, extremes_spec_topCall, ?_⟩
  rw [extremes_topCall, extremes_spec_topCall]
  simp only [ne_eq, Option.some.injEq, Prod.mk.injEq]
  norm_num

/-- C5 (amended): for every positive current_price the scanner's
candidate set is the integers of the half-open interval
[floor(0.5 p), floor(1.5 p)) — Python int truncation at both ends, not
ceil at the top — and whenever that set is non-empty the scan returns
the maximum observed payoff as max_profit and the minimum as max_loss
(it throws on an empty set, which happens for 0 < p < 2/3). -/
theorem C5_scan_floor_bounds (legs : List OptionLeg) (p : ℚ)
    (h : 0 < p) :
    scanCandidates p = pyRange ⌊p * (1/2)⌋ ⌊p * (3/2)⌋ ∧
    (scanCandidates p ≠ [] →
      ∃ mp ml, extremes p legs = some (mp, ml) ∧
        mp ∈ (scanCandidates p).map
          (fun (c : ℤ) => calculate_payoff (c : ℚ) legs) ∧
        ml ∈ (scanCandidates p).map
          (fun (c : ℤ) => calculate_payoff (c : ℚ) legs) ∧
        ∀ x ∈ (scanCandidates p).map
          (fun (c : ℤ) => calculate_payoff (c : ℚ) legs),
          ml ≤ x ∧ x ≤ mp) := by
  constructor
  · unfold scanCandidates pyInt
    rw [if_neg (not_lt.mpr (by positivity)), if_neg (not_lt.mpr (by positivity))]
  · intro hne
    obtain ⟨mp, ml, he⟩ := extremes_of_ne_nil legs hne
    obtain ⟨v, vs, hmap, hmp, hml⟩ := extremes_inv he
    refine ⟨mp, ml, he, ?_, ?_, ?_⟩
    · rw [hmap, hmp]
      exact foldl_max_mem v vs
    · rw [hmap, hml]
      exact foldl_min_mem v vs
    · intro x hx
      rw [hmap] at hx
      rw [hmp, hml]
      rcases List.mem_cons.mp hx with rfl | hx2
      · exact ⟨foldl_min_le x vs, le_foldl_max x vs⟩
      · exact ⟨foldl_min_le_mem v vs hx2, mem_le_foldl_max v vs hx2⟩

/-- Witness for the amended C5: one bought 1-strike call at price 3. -/
theorem C5_witness :
    (0 : ℚ) < 3 ∧ scanCandidates (3 : ℚ) ≠ [] ∧
    (∃ mp ml, extremes (3 : ℚ) scanWitnessLegs = some (mp, ml) ∧
      mp ∈ (scanCandidates (3 : ℚ)).map
        (fun (c : ℤ) => calculate_payoff (c : ℚ) scanWitnessLegs) ∧
      ml ∈ (scanCandidates (3 : ℚ)).map
        (fun (c : ℤ) => calculate_payoff (c : ℚ) scanWitnessLegs) ∧
      ∀ x ∈ (scanCandidates (3 : ℚ)).map
        (fun (c : ℤ) => calculate_payoff (c : ℚ) scanWitnessLegs),
        ml ≤ x ∧ x ≤ mp) :=
  ⟨by norm_num, by rw [scan_three]; exact List.cons_ne_nil _ _,
   (C5_scan_floor_bounds scanWitnessLegs 3 (by norm_num)).2
     (by rw [scan_three]; exact List.cons_ne_nil _ _)⟩

theorem scan_cs : scanCandidates (27/10 : ℚ) = [1, 2, 3] := by
  norm_num [scanCandidates, pyInt, pyRange_cons, pyRange_nil]

theorem extremes_cs : extremes (27/10 : ℚ) csLegs = some (0, -300) := by
  unfold extremes
  rw [scan_cs]
  simp [calculate_payoff, csLegs, max_def]
  norm_num

theorem build_cs :
    buildRecommendations (-240) 0 (-300) (27/10 : ℚ) csLegs =
      [RecContent.closeLoss 80, RecContent.adjustCallSpread 2 7,
       RecContent.timeDecayInfo] := by
  simp [buildRecommendations, csLegs, lossPercent, maxStrike, minStrike,
    pyInt, max_def]
  norm_num

theorem callSpread_eval :
    analyze_adjustment_scenarios callSpreadReq = some callSpreadRes := by
  simp only [analyze_adjustment_scenarios, callSpreadReq]
  simp only [extremes_cs]
  have hsp : scenarioPrice (27/10 : ℚ) "price_up" none = 297/100 := by
    simp [scenarioPrice, pyOr]
    norm_num
  have hpnl : calculate_payoff (27/10 : ℚ) csLegs = -240 := by
    simp [calculate_payoff, csLegs, max_def]
    norm_num
  have hspnl : calculate_payoff (297/100 : ℚ) csLegs = -294 := by
    simp [calculate_payoff, csLegs, max_def]
    norm_num
  rw [hsp, hspnl, hpnl, build_cs,
    round2_eval (-240) (-240) (-24000) (by norm_num) (by norm_num),
    round2_eval (-294) (-294) (-29400) (by norm_num) (by norm_num),
    round2_eval (-294 - -240) (-54) (-5400) (by norm_num) (by norm_num),
    round2_eval 0 0 0 (by norm_num) (by norm_num),
    round2_eval (-300) (-300) (-30000) (by norm_num) (by norm_num)]
  rfl

/-- C6 is false as stated: at price 2.7 the roll-up rule fires and the
code suggests strikes `int(2.7) = 2` and `2 + 5 = 7` (Python `int`
truncation), whereas the claim promises `round(2.7) = 3` and `3 + 5 = 8`. -/
theorem C6_counterexample :
    analyze_adjustment_scenarios callSpreadReq = some callSpreadRes ∧
    RecContent.adjustCallSpread 2 7 ∈ callSpreadRes.recommendations ∧
    callSpreadReq.current_price = 27/10 ∧
    pyRound (27/10 : ℚ) = 3 ∧
    (2 : ℤ) ≠ 3 ∧ (7 : ℤ) ≠ 3 + 5 :=
  ⟨callSpread_eval, by simp [callSpreadRes], rfl,
   by norm_num [pyRound], by norm_num, by norm_num⟩

/-- C6 (amended): whenever a roll-up (call-spread) adjustment is
emitted its suggested strikes are `int(current_price)` and
`int(current_price) + 5` — Python `int` truncation toward zero, not
`round` — and whenever a roll-down (put-spread) adjustment is emitted
its strikes are `int(current_price) − 5` and `int(current_price)`. -/
theorem C6_adjust_strike_trunc (s : AdjustmentScenario)
    (r : ScenarioResult) (a b : ℤ)
    (h : analyze_adjustment_scenarios s = some r) :
    (RecContent.adjustCallSpread a b ∈ r.recommendations →
      a = pyInt s.current_price ∧ b = pyInt s.current_price + 5) ∧
    (RecContent.adjustPutSpread a b ∈ r.recommendations →
      a = pyInt s.current_price - 5 ∧ b = pyInt s.current_price) := by
  obtain ⟨mp, ml, he, rfl⟩ := analyze_inv h
  exact ⟨fun hm => build_call_adjust hm, fun hm => build_put_adjust hm⟩

/-- Witness for the amended C6 on the firing roll-up input. -/
theorem C6_witness :
    analyze_adjustment_scenarios callSpreadReq = some callSpreadRes ∧
    RecContent.adjustCallSpread 2 7 ∈ callSpreadRes.recommendations ∧
    ((RecContent.adjustCallSpread 2 7 ∈ callSpreadRes.recommendations →
      (2 : ℤ) = pyInt callSpreadReq.current_price ∧
      (7 : ℤ) = pyInt callSpreadReq.current_price + 5) ∧
     (RecContent.adjustPutSpread 2 7 ∈ callSpreadRes.recommendations →
      (2 : ℤ) = pyInt callSpreadReq.current_price - 5 ∧
      (7 : ℤ) = pyInt callSpreadReq.current_price)) :=
  ⟨callSpread_eval, by simp [callSpreadRes],
   C6_adjust_strike_trunc callSpreadReq callSpreadRes 2 7 callSpread_eval⟩

/-- C7: whenever the evaluation returns a result, the recommendation
list is non-empty and its last element is the time-decay reminder,
whose type is `info` and urgency `low`, regardless of the sign of the
P&L and of which other rules fired. -/
theorem C7_terminal_info (s : AdjustmentScenario) (r : ScenarioResult)
    (h : analyze_adjustment_scenarios s = some r) :
    r.recommendations ≠ [] ∧
    r.recommendations.getLast? = some RecContent.timeDecayInfo ∧
    recType RecContent.timeDecayInfo = "info" ∧
    recUrgency RecContent.timeDecayInfo = "low" := by
  obtain ⟨mp, ml, he, rfl⟩ := analyze_inv h
  exact ⟨build_ne_nil _ _ _ _ _, build_getLast _ _ _ _ _, rfl, rfl⟩

/-- Witness for C7 on the empty-legs request at price 1. -/
theorem C7_witness :
    analyze_adjustment_scenarios emptyUpReq = some emptyUpRes ∧
    (emptyUpRes.recommendations ≠ [] ∧
     emptyUpRes.recommendations.getLast? = some RecContent.timeDecayInfo ∧
     recType RecContent.timeDecayInfo = "info" ∧
     recUrgency RecContent.timeDecayInfo = "low") :=
  ⟨emptyUp_eval, C7_terminal_info emptyUpReq emptyUpRes emptyUp_eval⟩

/-- C8: under a losing position the guarded divisor of the
loss-percent computation is never zero — it is 1 when max_loss = 0 and
|max_loss| otherwise — and the computed percentage is
|current_pnl| / |max_loss| × 100 (the ×100 turns the ratio into the
percent the source compares against 50 and 25). -/
theorem C8_loss_percent_guard (a b : ℚ) (h : a < 0) :
    (if b ≠ 0 then |b| else (1 : ℚ)) ≠ 0 ∧
    (b = 0 → lossPercent a b = |a| / 1 * 100) ∧
    (b ≠ 0 → lossPercent a b = |a| / |b| * 100) := by
  refine ⟨?_, ?_, ?_⟩
  · split_ifs with hb
    · exact abs_ne_zero.mpr hb
    · norm_num
  · intro hb
    simp [lossPercent, hb]
  · intro hb
    simp [lossPercent, hb]

/-- Witness for C8 at current_pnl = −50, max_loss = 0. -/
theorem C8_witness :
    ((-50 : ℚ) < 0) ∧
    ((if (0 : ℚ) ≠ 0 then |(0 : ℚ)| else (1 : ℚ)) ≠ 0 ∧
     ((0 : ℚ) = 0 → lossPercent (-50) 0 = |(-50 : ℚ)| / 1 * 100) ∧
     ((0 : ℚ) ≠ 0 → lossPercent (-50) 0 = |(-50 : ℚ)| / |(0 : ℚ)| * 100)) :=
  ⟨by norm_num, C8_loss_percent_guard (-50) 0 (by norm_num)⟩

/-- C9: a scenario_value explicitly supplied as 0.0 is falsy in the
source's `scenario.scenario_value or 0.1`, so it is replaced by the
0.10 default exactly as an absent value is: price_up yields
current_price × 1.1 and price_down yields current_price × 0.9. -/
theorem C9_zero_magnitude_default (q : ℚ) :
    scenarioPrice q "price_up" (some 0) = q * (11/10) ∧
    scenarioPrice q "price_down" (some 0) = q * (9/10) ∧
    scenarioPrice q "price_up" (some 0) = scenarioPrice q "price_up" none ∧
    scenarioPrice q "price_down" (some 0) =
      scenarioPrice q "price_down" none := by
  refine ⟨?_, ?_, ?_, ?_⟩ <;> simp [scenarioPrice, pyOr] <;>
    norm_num

/-- C10: whenever the evaluation returns a result and the current P&L
is exactly zero, no loss rule, shape rule or profit rule fires — all
require a strictly negative or strictly positive P&L — and the
recommendation list is exactly the single terminal time-decay
reminder. -/
theorem C10_zero_pnl_single_info (s : AdjustmentScenario)
    (r : ScenarioResult)
    (h : analyze_adjustment_scenarios s = some r)
    (h0 : calculate_payoff s.current_price s.options = 0) :
    r.recommendations = [RecContent.timeDecayInfo] := by
  obtain ⟨mp, ml, he, rfl⟩ := analyze_inv h
  show buildRecommendations _ mp ml _ _ = _
  rw [h0]
  exact build_zero_pnl _ _ _ _

/-- Witness for C10 on the empty-legs request at price 1. -/
theorem C10_witness :
    analyze_adjustment_scenarios emptyUpReq = some emptyUpRes ∧
    calculate_payoff emptyUpReq.current_price emptyUpReq.options = 0 ∧
    emptyUpRes.recommendations = [RecContent.timeDecayInfo] :=
  ⟨emptyUp_eval, by simp [emptyUpReq, calculate_payoff],
   C10_zero_pnl_single_info emptyUpReq emptyUpRes emptyUp_eval
     (by simp [emptyUpReq, calculate_payoff])⟩

end OptionsAnalyzer

